import Mathlib

/-!
Shallow embedding of the yatube blog application (posts app: models.py and
views.py) for verification of its specification.

Users are identified by their unique username, modelled as a natural number.
The database state holds the rows of the Post, Comment and Follow tables as
lists (the data layer imposes no uniqueness constraint on Follow) together
with the registered users and the id/clock counters the ORM supplies.

Each Django view becomes a function from the request data (the optional
authenticated user, url arguments, bound form data, the page query
parameter) and the database state to the new database state and a response.
The login_required decorator is the outermost check: an anonymous user is
answered with a redirect to the login page before the view body runs.
-/

namespace Yatube

/-- A row of the Post table (models.py, class Post): text, immutable
server-assigned publication date, required author, optional group,
optional image.  Meta ordering is newest-first by pub_date. -/
structure Post where
  id : Nat
  text : String
  pub_date : Nat
  author : Nat
  group : Option Nat
  image : String
deriving DecidableEq, Repr

/-- A row of the Comment table (models.py, class Comment): belongs to one
post, written by one author, immutable creation date. -/
structure Comment where
  id : Nat
  post : Nat
  author : Nat
  text : String
  created : Nat
deriving DecidableEq, Repr

/-- A row of the Follow table (models.py, class Follow): a directed edge
user → author.  No uniqueness constraint at the data layer. -/
structure Follow where
  user : Nat
  author : Nat
deriving DecidableEq, Repr

/-- The database state: registered users, the three content tables, the
ORM id counters and the server clock used for auto_now_add fields. -/
structure DB where
  users : List Nat
  posts : List Post
  comments : List Comment
  follows : List Follow
  nextPostId : Nat
  nextCommentId : Nat
  now : Nat
deriving Repr

/-- Modelled from the spec: the bound data of PostForm (forms.py is not
among the provided sources).  Per §4.4, text is required, group optional,
image optional; a missing image on edit keeps the stored file. -/
structure PostFormData where
  text : String
  group : Option Nat
  image : Option String
deriving DecidableEq, Repr

/-- Modelled from the spec: PostForm.is_valid — text is required, group and
image are optional (§4.4). -/
def PostFormData.is_valid (f : PostFormData) : Bool :=
  !(f.text == "")

/-- Modelled from the spec: the bound data of CommentForm (forms.py is not
among the provided sources); its only field is the comment text. -/
structure CommentFormData where
  text : String
deriving DecidableEq, Repr

/-- Modelled from the spec: CommentForm.is_valid — the comment text is
required. -/
def CommentFormData.is_valid (f : CommentFormData) : Bool :=
  !(f.text == "")

/-- The page query parameter as the view sees it: absent, present but not
an integer, or an integer. -/
inductive PageParam where
  | missing
  | malformed
  | num (n : Int)
deriving DecidableEq, Repr

/-- The responses the posts views produce. -/
inductive Response where
  | redirectLogin
  | notFound
  | redirectProfile (username : Nat)
  | redirectPostDetail (postId : Nat)
  | createTemplate (form : PostFormData)
  | updateTemplate (form : PostFormData) (postId : Nat)
  | followTemplate (page : Nat × List Post)
deriving DecidableEq, Repr

/-- Django Paginator.num_pages: ceil(count / per_page), at least one page
because an empty first page is allowed. -/
def numPages (count per : Nat) : Nat :=
  (max 1 count + per - 1) / per

/-- Django Paginator.get_page number resolution, as documented: a missing
or non-integer page parameter gives the first page; a page number below 1
or above num_pages gives the last page. -/
def getPageNumber (count per : Nat) (pp : PageParam) : Nat :=
  match pp with
  | .missing => 1
  | .malformed => 1
  | .num n =>
      if n < 1 then numPages count per
      else if (numPages count per : Int) < n then numPages count per
      else n.toNat

/-- Django Paginator.get_page: resolve the page number, then slice the
object list for that page.  Returns the page number and its items. -/
def pagerGet (l : List α) (per : Nat) (pp : PageParam) : Nat × List α :=
  let pn := getPageNumber l.length per pp
  (pn, (l.drop ((pn - 1) * per)).take per)

/-- Modelled from the spec: settings.PAGE_NUM (settings.py is not among the
provided sources); §6 records the observed value 10. -/
def PAGE_NUM : Nat := 10

/-- views.pager: wraps the post list in a Paginator of PAGE_NUM items per
page and resolves the page query parameter with get_page. -/
def pager (req : PageParam) (post_list : List Post) : Nat × List Post :=
  pagerGet post_list PAGE_NUM req

/-- Insert a post into a list kept newest-first by pub_date. -/
def insertByDate (p : Post) : List Post → List Post
  | [] => [p]
  | q :: qs => if q.pub_date ≤ p.pub_date then p :: q :: qs else q :: insertByDate p qs

/-- The ordering Meta of Post (ordering = [-pub_date]): sort a queryset
newest-first by publication date. -/
def sortByDateDesc : List Post → List Post
  | [] => []
  | p :: ps => insertByDate p (sortByDateDesc ps)

/-- The queryset of views.follow_index:
Post.objects.filter(author__following__user=request.user), with the model
ordering applied — the posts having some Follow edge from the user to
their author, newest-first. -/
def followFeedList (db : DB) (u : Nat) : List Post :=
  sortByDateDesc (db.posts.filter (fun p =>
    db.follows.any (fun f => f.user == u && f.author == p.author)))

/-- views.follow_index: login required; page the followed-authors feed. -/
def follow_index (db : DB) (user : Option Nat) (req : PageParam) : DB × Response :=
  match user with
  | none => (db, .redirectLogin)
  | some u => (db, .followTemplate (pager req (followFeedList db u)))

/-- views.post_create: login required; on a valid form save a new post
authored by the current user and redirect to their profile, otherwise
re-render the creation form. -/
def post_create (db : DB) (user : Option Nat) (f : PostFormData) : DB × Response :=
  match user with
  | none => (db, .redirectLogin)
  | some u =>
      if f.is_valid then
        let new_post : Post :=
          ⟨db.nextPostId, f.text, db.now, u, f.group, f.image.getD ""⟩
        ({ db with posts := db.posts ++ [new_post], nextPostId := db.nextPostId + 1 },
          .redirectProfile u)
      else (db, .createTemplate f)

/-- views.post_edit: login required; 404 if the post id does not exist;
redirect to the detail page when the current user is not the author; on a
valid form save the changes into the same row and redirect to detail;
otherwise re-render the update form. -/
def post_edit (db : DB) (user : Option Nat) (post_id : Nat) (f : PostFormData) :
    DB × Response :=
  match user with
  | none => (db, .redirectLogin)
  | some u =>
      match db.posts.find? (fun p => p.id == post_id) with
      | none => (db, .notFound)
      | some post =>
          if u ≠ post.author then (db, .redirectPostDetail post_id)
          else if f.is_valid then
            ({ db with posts := db.posts.map (fun p =>
                if p.id == post_id then
                  { p with text := f.text, group := f.group,
                           image := f.image.getD p.image }
                else p) },
              .redirectPostDetail post_id)
          else (db, .updateTemplate f post_id)

/-- views.add_comment: login required; 404 if the post id does not exist;
on a valid form save a comment by the current user on that post; in every
case redirect to the detail page. -/
def add_comment (db : DB) (user : Option Nat) (post_id : Nat) (f : CommentFormData) :
    DB × Response :=
  match user with
  | none => (db, .redirectLogin)
  | some u =>
      match db.posts.find? (fun p => p.id == post_id) with
      | none => (db, .notFound)
      | some _post =>
          let db2 :=
            if f.is_valid then
              { db with
                comments := db.comments ++
                  [⟨db.nextCommentId, post_id, u, f.text, db.now⟩],
                nextCommentId := db.nextCommentId + 1 }
            else db
          (db2, .redirectPostDetail post_id)

/-- views.profile_follow: login required; 404 if the username does not
exist; unless the current user is the target author, get-or-create the
follow edge; redirect to the profile. -/
def profile_follow (db : DB) (user : Option Nat) (username : Nat) : DB × Response :=
  match user with
  | none => (db, .redirectLogin)
  | some u =>
      if db.users.contains username then
        if u ≠ username then
          if db.follows.any (fun f => f.user == u && f.author == username) then
            (db, .redirectProfile username)
          else
            ({ db with follows := db.follows ++ [⟨u, username⟩] },
              .redirectProfile username)
        else (db, .redirectProfile username)
      else (db, .notFound)

/-- views.profile_unfollow: login required; 404 if the username does not
exist; delete every follow edge of the current user towards the target;
redirect to the profile. -/
def profile_unfollow (db : DB) (user : Option Nat) (username : Nat) : DB × Response :=
  match user with
  | none => (db, .redirectLogin)
  | some u =>
      if db.users.contains username then
        ({ db with follows := db.follows.filter (fun f =>
            !(f.user == u && f.author == username)) },
          .redirectProfile username)
      else (db, .notFound)

/-- The number of follow edges of a given (user, author) pair. -/
def followCount (fs : List Follow) (u a : Nat) : Nat :=
  (fs.filter (fun f => f.user == u && f.author == a)).length

/-- Modelled from the spec: the 20-second TTL of the rendered index page
(the cache configuration lives outside the provided sources, §4.2). -/
def CACHE_TTL : Nat := 20

/-- Modelled from the spec: a cache entry for the rendered index listing —
the rendered bytes with the server time at which they were stored. -/
structure CacheEntry where
  storedAt : Nat
  bytes : String
deriving DecidableEq, Repr

/-- The rendered index listing: all posts, newest-first, paged. -/
def renderIndex (db : DB) (req : PageParam) : String :=
  toString ((pager req (sortByDateDesc db.posts)).2.map Post.id)

/-- Modelled from the spec: the cached index view (§4.2, §5) — a TTL cache
of the rendered output whose key does not depend on the query parameters;
a hit inside the validity window returns the stored bytes unchanged, a
miss or an expired entry renders the current data and stores it. -/
def cachedIndex (now : Nat) (db : DB) (req : PageParam) (c : Option CacheEntry) :
    String × Option CacheEntry :=
  match c with
  | some e =>
      if now < e.storedAt + CACHE_TTL then (e.bytes, some e)
      else
        let b := renderIndex db req
        (b, some ⟨now, b⟩)
  | none =>
      let b := renderIndex db req
      (b, some ⟨now, b⟩)

/-- Modelled from the spec: the manual, administrative cache clear (§4.2). -/
def cacheClear (_c : Option CacheEntry) : Option CacheEntry := none

/-- The spec wording of §4.1 for comparison with the code: an invalid or
out-of-range page number is clamped to the NEAREST valid page. -/
def nearestValidPage (count per : Nat) (pp : PageParam) : Nat :=
  match pp with
  | .missing => 1
  | .malformed => 1
  | .num n =>
      if n < 1 then 1
      else if (numPages count per : Int) < n then numPages count per
      else n.toNat

/-- A concrete fixture of thirteen posts, as in the paginator tests. -/
def mkPost (i : Nat) : Post :=
  ⟨i, "text", i, 0, none, ""⟩

/-- The thirteen-post fixture list. -/
def posts13 : List Post :=
  (List.range 13).map mkPost

/-- A small concrete database: users 1 and 2, one post authored by user 2. -/
def dbSmall : DB :=
  { users := [1, 2]
    posts := [⟨5, "hello", 0, 2, none, ""⟩]
    comments := []
    follows := []
    nextPostId := 6
    nextCommentId := 0
    now := 3 }

/-- Claim C9: in every login_required handler (post_edit, add_comment,
profile_follow, profile_unfollow) the authentication check runs before the
existence check — an anonymous request is answered with the login redirect,
whatever post id or username it names (existing or not), the database is
untouched, and the answer is never the 404 response. -/
theorem anonymous_redirects_to_login (db : DB) (post_id username : Nat)
    (f : PostFormData) (g : CommentFormData) :
    post_edit db none post_id f = (db, Response.redirectLogin)
    ∧ add_comment db none post_id g = (db, Response.redirectLogin)
    ∧ profile_follow db none username = (db, Response.redirectLogin)
    ∧ profile_unfollow db none username = (db, Response.redirectLogin)
    ∧ Response.redirectLogin ≠ Response.notFound :=
  ⟨rfl, rfl, rfl, rfl, by decide⟩

/-- Witness for claim C9: an anonymous edit request naming the nonexistent
post 99 is answered with the login redirect, not a 404. -/
theorem anonymous_redirects_to_login_witness :
    post_edit dbSmall none 99 ⟨"x", none, none⟩ = (dbSmall, Response.redirectLogin) :=
  (anonymous_redirects_to_login dbSmall 99 99 ⟨"x", none, none⟩ ⟨"y"⟩).1

/-- Claim C3: an edit request by an authenticated user who is not the post
author mutates no stored row and is answered with a redirect to the post
detail page, whatever the submitted form data (valid or not). -/
theorem post_edit_nonauthor_spec (db : DB) (u post_id : Nat)
    (f : PostFormData) (post : Post)
    (hfind : db.posts.find? (fun p => p.id == post_id) = some post)
    (hne : u ≠ post.author) :
    post_edit db (some u) post_id f = (db, Response.redirectPostDetail post_id) := by
  simp [post_edit, hfind, hne]

/-- Witness for claim C3: user 1 asks to edit post 5 authored by user 2,
with an invalid form; nothing changes and the answer is the detail redirect. -/
theorem post_edit_nonauthor_spec_witness :
    dbSmall.posts.find? (fun p => p.id == 5) = some ⟨5, "hello", 0, 2, none, ""⟩
    ∧ post_edit dbSmall (some 1) 5 ⟨"", none, none⟩ =
        (dbSmall, Response.redirectPostDetail 5) :=
  ⟨by decide,
    post_edit_nonauthor_spec dbSmall 1 5 ⟨"", none, none⟩
      ⟨5, "hello", 0, 2, none, ""⟩ (by decide) (by decide)⟩

/-- Counterexample for claim C4: with 13 items and page size 10, requesting
page 0 gives the LAST page (page 2, the one with 3 items), although the
nearest valid page is page 1 — out-of-range numbers below 1 are not clamped
to the nearest valid page. -/
theorem pager_nearest_page_counterexample :
    (pager (PageParam.num 0) posts13).1 = 2
    ∧ nearestValidPage posts13.length PAGE_NUM (PageParam.num 0) = 1
    ∧ (pager (PageParam.num 0) posts13).1 ≠
        nearestValidPage posts13.length PAGE_NUM (PageParam.num 0) := by
  decide

/-- Claim C4 (amended): every page holds at most the configured number of
items; a missing or non-integer page parameter gives page 1; an out-of-range
page number — above the last page or below 1 — gives the LAST page rather
than failing; an in-range number is honoured; with 13 items and page size
10, page 1 holds 10 items and page 2 holds 3. -/
theorem pager_spec_amended (l : List Post) (per : Nat) (pp : PageParam) (n : Int) :
    (pagerGet l per pp).2.length ≤ per
    ∧ (pagerGet l per PageParam.missing).1 = 1
    ∧ (pagerGet l per PageParam.malformed).1 = 1
    ∧ ((n < 1 ∨ (numPages l.length per : Int) < n) →
        (pagerGet l per (PageParam.num n)).1 = numPages l.length per)
    ∧ (1 ≤ n → n ≤ (numPages l.length per : Int) →
        (pagerGet l per (PageParam.num n)).1 = n.toNat)
    ∧ (pager (PageParam.num 1) posts13).2.length = PAGE_NUM
    ∧ (pager (PageParam.num 2) posts13).2.length = 3 := by
  refine ⟨?_, rfl, rfl, ?_, ?_, by decide, by decide⟩
  · show ((l.drop _).take per).length ≤ per
    simp [List.length_take_le]
  · intro h
    show getPageNumber l.length per (PageParam.num n) = numPages l.length per
    rcases h with h | h
    · simp [getPageNumber, h]
    · have h1 : ¬ n < 1 := by omega
      simp [getPageNumber, h1, h]
  · intro h1 h2
    show getPageNumber l.length per (PageParam.num n) = n.toNat
    have h3 : ¬ n < 1 := by omega
    have h4 : ¬ (numPages l.length per : Int) < n := by omega
    simp [getPageNumber, h3, h4]

/-- Witness for claim C4 (amended): on the 13-post fixture at page size 10,
requesting page 0 (an out-of-range number) yields the last page. -/
theorem pager_spec_amended_witness :
    ((0 : Int) < 1 ∨ (numPages posts13.length 10 : Int) < 0)
    ∧ (pagerGet posts13 10 (PageParam.num 0)).1 = numPages posts13.length 10 :=
  ⟨Or.inl (by decide),
    (pager_spec_amended posts13 10 PageParam.missing 0).2.2.2.1 (Or.inl (by decide))⟩

/-- Membership is preserved by the ordered insertion. -/
theorem mem_insertByDate (p q : Post) (l : List Post) :
    q ∈ insertByDate p l ↔ q = p ∨ q ∈ l := by
  induction l with
  | nil => simp [insertByDate]
  | cons a as ih =>
      by_cases h : a.pub_date ≤ p.pub_date
      · simp [insertByDate, h]
      · simp only [insertByDate, if_neg h, List.mem_cons, ih]
        tauto

/-- Membership is preserved by the newest-first sort. -/
theorem mem_sortByDateDesc (q : Post) (l : List Post) :
    q ∈ sortByDateDesc l ↔ q ∈ l := by
  induction l with
  | nil => simp [sortByDateDesc]
  | cons a as ih => simp [sortByDateDesc, mem_insertByDate, ih]

/-- Ordered insertion keeps the list pairwise newest-first. -/
theorem pairwise_insertByDate (p : Post) (l : List Post)
    (h : l.Pairwise (fun a b => b.pub_date ≤ a.pub_date)) :
    (insertByDate p l).Pairwise (fun a b => b.pub_date ≤ a.pub_date) := by
  induction l with
  | nil => simp [insertByDate]
  | cons a as ih =>
      rcases List.pairwise_cons.mp h with ⟨ha, has⟩
      by_cases hle : a.pub_date ≤ p.pub_date
      · rw [insertByDate, if_pos hle]
        refine List.pairwise_cons.mpr ⟨?_, h⟩
        intro b hb
        rcases List.mem_cons.mp hb with rfl | hb
        · exact hle
        · exact le_trans (ha b hb) hle
      · rw [insertByDate, if_neg hle]
        refine List.pairwise_cons.mpr ⟨?_, ih has⟩
        intro b hb
        rcases (mem_insertByDate p b as).mp hb with rfl | hb
        · exact (not_le.mp hle).le
        · exact ha b hb

/-- The newest-first sort produces a pairwise newest-first list. -/
theorem pairwise_sortByDateDesc (l : List Post) :
    (sortByDateDesc l).Pairwise (fun a b => b.pub_date ≤ a.pub_date) := by
  induction l with
  | nil => simp [sortByDateDesc]
  | cons a as ih => exact pairwise_insertByDate a _ ih

/-- Claim C1: the follow feed of an authenticated user holds exactly the
posts whose author the user follows — every post by a followed author and
none by an unfollowed one — ordered newest-first by publication date, and
the view answers with that list paged. -/
theorem follow_index_spec (db : DB) (u : Nat) (req : PageParam) :
    (∀ p : Post, p ∈ followFeedList db u ↔
        (p ∈ db.posts ∧ ∃ f ∈ db.follows, f.user = u ∧ f.author = p.author))
    ∧ (followFeedList db u).Pairwise (fun a b => b.pub_date ≤ a.pub_date)
    ∧ follow_index db (some u) req =
        (db, Response.followTemplate (pager req (followFeedList db u))) := by
  refine ⟨?_, pairwise_sortByDateDesc _, rfl⟩
  intro p
  rw [followFeedList, mem_sortByDateDesc, List.mem_filter]
  simp [List.any_eq_true]

/-- A concrete database for the feed: user 1 follows user 2; post 0 is by
user 2, post 1 is by the unfollowed user 3. -/
def dbFeed : DB :=
  { users := [1, 2, 3]
    posts := [⟨0, "a", 0, 2, none, ""⟩, ⟨1, "b", 1, 3, none, ""⟩]
    comments := []
    follows := [⟨1, 2⟩]
    nextPostId := 2
    nextCommentId := 0
    now := 5 }

/-- Witness for claim C1: the post of the followed author 2 is in the feed
of user 1. -/
theorem follow_index_spec_witness :
    (⟨0, "a", 0, 2, none, ""⟩ : Post) ∈ followFeedList dbFeed 1 :=
  ((follow_index_spec dbFeed 1 PageParam.missing).1 _).mpr
    ⟨by decide, ⟨1, 2⟩, by decide, by decide, by decide⟩

/-- Claim C5: a valid create submission by an authenticated user persists
exactly one new post whose author is the submitting user, touches no other
table, and redirects to that user's profile; an invalid submission creates
nothing and re-renders the form with its data. -/
theorem post_create_spec (db : DB) (u : Nat) (f : PostFormData) :
    (f.is_valid = true →
      (post_create db (some u) f).1.posts.length = db.posts.length + 1
      ∧ (∃ p : Post, (post_create db (some u) f).1.posts = db.posts ++ [p]
          ∧ p.author = u)
      ∧ (post_create db (some u) f).1.comments = db.comments
      ∧ (post_create db (some u) f).1.follows = db.follows
      ∧ (post_create db (some u) f).2 = Response.redirectProfile u)
    ∧ (f.is_valid = false →
        post_create db (some u) f = (db, Response.createTemplate f)) := by
  constructor
  · intro hv
    refine ⟨?_, ⟨⟨db.nextPostId, f.text, db.now, u, f.group, f.image.getD ""⟩,
      ?_, rfl⟩, ?_, ?_, ?_⟩ <;> simp [post_create, hv]
  · intro hv
    simp [post_create, hv]

/-- Witness for claim C5: a valid form adds one post for user 1; an invalid
form (empty text) changes nothing. -/
theorem post_create_spec_witness :
    (PostFormData.is_valid ⟨"hi", none, none⟩ = true
      ∧ (post_create dbSmall (some 1) ⟨"hi", none, none⟩).1.posts.length =
          dbSmall.posts.length + 1)
    ∧ (PostFormData.is_valid ⟨"", none, none⟩ = false
      ∧ post_create dbSmall (some 1) ⟨"", none, none⟩ =
          (dbSmall, Response.createTemplate ⟨"", none, none⟩)) :=
  ⟨⟨by decide, ((post_create_spec dbSmall 1 ⟨"hi", none, none⟩).1 (by decide)).1⟩,
   ⟨by decide, (post_create_spec dbSmall 1 ⟨"", none, none⟩).2 (by decide)⟩⟩

/-- Claim C6: a comment submission by an authenticated user on an existing
post creates, when the form is valid, exactly one comment attributed to that
user and that post; when it is invalid it creates nothing; in both cases the
answer is the redirect to the post detail page. -/
theorem add_comment_spec (db : DB) (u post_id : Nat) (f : CommentFormData)
    (post : Post)
    (hfind : db.posts.find? (fun p => p.id == post_id) = some post) :
    (f.is_valid = true →
      (∃ c : Comment, (add_comment db (some u) post_id f).1.comments =
          db.comments ++ [c] ∧ c.author = u ∧ c.post = post_id)
      ∧ (add_comment db (some u) post_id f).1.comments.length =
          db.comments.length + 1
      ∧ (add_comment db (some u) post_id f).1.posts = db.posts
      ∧ (add_comment db (some u) post_id f).1.follows = db.follows)
    ∧ (f.is_valid = false → (add_comment db (some u) post_id f).1 = db)
    ∧ (add_comment db (some u) post_id f).2 = Response.redirectPostDetail post_id := by
  refine ⟨?_, ?_, ?_⟩
  · intro hv
    refine ⟨⟨⟨db.nextCommentId, post_id, u, f.text, db.now⟩, ?_, rfl, rfl⟩,
      ?_, ?_, ?_⟩ <;> simp [add_comment, hfind, hv]
  · intro hv
    simp [add_comment, hfind, hv]
  · simp [add_comment, hfind]

/-- Witness for claim C6: commenting on post 5 of the small database with a
valid form adds one comment; an empty form adds none, and both answers are
the detail redirect. -/
theorem add_comment_spec_witness :
    dbSmall.posts.find? (fun p => p.id == 5) = some ⟨5, "hello", 0, 2, none, ""⟩
    ∧ (add_comment dbSmall (some 1) 5 ⟨"ok"⟩).1.comments.length =
        dbSmall.comments.length + 1
    ∧ (add_comment dbSmall (some 1) 5 ⟨""⟩).1 = dbSmall
    ∧ (add_comment dbSmall (some 1) 5 ⟨""⟩).2 = Response.redirectPostDetail 5 :=
  ⟨by decide,
   ((add_comment_spec dbSmall 1 5 ⟨"ok"⟩ ⟨5, "hello", 0, 2, none, ""⟩
      (by decide)).1 (by decide)).2.1,
   (add_comment_spec dbSmall 1 5 ⟨""⟩ ⟨5, "hello", 0, 2, none, ""⟩
      (by decide)).2.1 (by decide),
   (add_comment_spec dbSmall 1 5 ⟨""⟩ ⟨5, "hello", 0, 2, none, ""⟩
      (by decide)).2.2⟩

/-- Appending an edge of the pair raises its count by one. -/
theorem followCount_append_edge (fs : List Follow) (u a : Nat) :
    followCount (fs ++ [⟨u, a⟩]) u a = followCount fs u a + 1 := by
  simp [followCount, List.filter_append]

/-- The pair count is zero exactly when the get-or-create existence test of
profile_follow fails. -/
theorem followCount_eq_zero_iff (fs : List Follow) (u a : Nat) :
    followCount fs u a = 0 ↔
      fs.any (fun f => f.user == u && f.author == a) = false := by
  simp [followCount, List.length_eq_zero, List.filter_eq_nil_iff, List.any_eq_false]

/-- One profile_follow call by a distinct user on an existing author leaves
exactly one edge of the pair, provided at most one was there before. -/
theorem profile_follow_count_one (db : DB) (u a : Nat)
    (ha : db.users.contains a = true) (hne : u ≠ a)
    (hinv : followCount db.follows u a ≤ 1) :
    followCount ((profile_follow db (some u) a).1).follows u a = 1 := by
  have hmem : a ∈ db.users := by simpa using ha
  cases hany : db.follows.any (fun f => f.user == u && f.author == a) with
  | true =>
      have hex : ∃ x ∈ db.follows, x.user = u ∧ x.author = a := by simpa using hany
      have h1 : followCount db.follows u a ≠ 0 := by
        intro h0
        rw [(followCount_eq_zero_iff _ _ _).mp h0] at hany
        exact Bool.false_ne_true hany
      have h2 : followCount db.follows u a = 1 := by omega
      simp [profile_follow, hmem, hne, hex, h2]
  | false =>
      have hnex : ¬ ∃ x ∈ db.follows, x.user = u ∧ x.author = a := by simpa using hany
      have h0 : followCount db.follows u a = 0 :=
        (followCount_eq_zero_iff _ _ _).mpr hany
      simp [profile_follow, hmem, hne, hnex, followCount_append_edge, h0]

/-- profile_follow does not touch the users table. -/
theorem profile_follow_users (db : DB) (u a : Nat) :
    ((profile_follow db (some u) a).1).users = db.users := by
  by_cases h1 : a ∈ db.users
  · by_cases h2 : u ≠ a
    · by_cases h3 : ∃ x ∈ db.follows, x.user = u ∧ x.author = a
      · simp [profile_follow, h1, h2, h3]
      · simp [profile_follow, h1, h2, h3]
    · simp [profile_follow, h1, h2]
  · simp [profile_follow, h1]

/-- One profile_unfollow call on an existing author deletes every edge of
the pair. -/
theorem profile_unfollow_count_zero (db : DB) (u a : Nat)
    (ha : db.users.contains a = true) :
    followCount ((profile_unfollow db (some u) a).1).follows u a = 0 := by
  have hmem : a ∈ db.users := by simpa using ha
  simp only [followCount, List.length_eq_zero, List.filter_eq_nil_iff]
  intro f hf
  simp [profile_unfollow, hmem, List.mem_filter] at hf
  simp only [Bool.and_eq_true, beq_iff_eq]
  rintro ⟨h1, h2⟩
  tauto

/-- profile_unfollow does not touch the users table. -/
theorem profile_unfollow_users (db : DB) (u a : Nat) :
    ((profile_unfollow db (some u) a).1).users = db.users := by
  by_cases h1 : a ∈ db.users
  · simp [profile_unfollow, h1]
  · simp [profile_unfollow, h1]

/-- Claim C2: on a state satisfying the at-most-one-edge invariant the
views maintain, following an existing distinct author twice leaves exactly
one edge for the pair, unfollowing twice leaves zero edges, and a
self-follow never changes the database. -/
theorem follow_unfollow_idempotent (db : DB) (u a : Nat)
    (ha : db.users.contains a = true) (hne : u ≠ a)
    (hinv : followCount db.follows u a ≤ 1) :
    followCount
      ((profile_follow (profile_follow db (some u) a).1 (some u) a).1).follows u a = 1
    ∧ followCount
        ((profile_unfollow (profile_unfollow db (some u) a).1 (some u) a).1).follows u a = 0
    ∧ (profile_follow db (some u) u).1 = db := by
  refine ⟨?_, ?_, ?_⟩
  · have h1 := profile_follow_count_one db u a ha hne hinv
    exact profile_follow_count_one _ u a
      (by rw [profile_follow_users]; exact ha) hne (by rw [h1])
  · exact profile_unfollow_count_zero _ u a
      (by rw [profile_unfollow_users]; exact ha)
  · by_cases h1 : u ∈ db.users
    · simp [profile_follow, h1]
    · simp [profile_follow, h1]

/-- Witness for claim C2: user 1 follows user 2 twice starting from the
empty follow table; exactly one edge results. -/
theorem follow_unfollow_idempotent_witness :
    (dbSmall.users.contains 2 = true ∧ (1 : Nat) ≠ 2
      ∧ followCount dbSmall.follows 1 2 ≤ 1)
    ∧ followCount
        ((profile_follow (profile_follow dbSmall (some 1) 2).1 (some 1) 2).1).follows 1 2 = 1
    ∧ (profile_follow dbSmall (some 1) 1).1 = dbSmall :=
  ⟨⟨by decide, by decide, by decide⟩,
   (follow_unfollow_idempotent dbSmall 1 2 (by decide) (by decide) (by decide)).1,
   (follow_unfollow_idempotent dbSmall 1 2 (by decide) (by decide) (by decide)).2.2⟩

/-- A database holding duplicate self-directed follow edges for user 1 —
a state the data layer permits since Follow has no uniqueness constraint. -/
def dbDup : DB :=
  { users := [1]
    posts := []
    comments := []
    follows := [⟨1, 1⟩, ⟨1, 1⟩]
    nextPostId := 0
    nextCommentId := 0
    now := 0 }

/-- Claim C10: profile_unfollow deletes every follow edge matching the
(user, author) pair in one operation — no matching-edge precondition and no
self-follow guard — so from any state, duplicates and self-directed edges
included, zero edges remain for the pair, restoring the at-most-one-edge
invariant; edges of other pairs keep their membership; the answer is the
profile redirect. -/
theorem unfollow_deletes_all_edges (db : DB) (u a : Nat)
    (ha : db.users.contains a = true) :
    followCount ((profile_unfollow db (some u) a).1).follows u a = 0
    ∧ (∀ f : Follow, ¬(f.user = u ∧ f.author = a) →
        (f ∈ ((profile_unfollow db (some u) a).1).follows ↔ f ∈ db.follows))
    ∧ (profile_unfollow db (some u) a).2 = Response.redirectProfile a := by
  have hmem : a ∈ db.users := by simpa using ha
  refine ⟨profile_unfollow_count_zero db u a ha, ?_, ?_⟩
  · intro f hf
    simp [profile_unfollow, hmem, List.mem_filter]
    tauto
  · simp [profile_unfollow, hmem]

/-- Witness for claim C10: unfollowing from a state with two duplicate
self-edges removes both. -/
theorem unfollow_deletes_all_edges_witness :
    dbDup.users.contains 1 = true
    ∧ followCount ((profile_unfollow dbDup (some 1) 1).1).follows 1 1 = 0 :=
  ⟨by decide, (unfollow_deletes_all_edges dbDup 1 1 (by decide)).1⟩

/-- Claim C7: the rendered index listing is cached for CACHE_TTL (20)
seconds under a key independent of the query parameters: inside the
validity window every request observes the stored bytes unchanged —
whatever the current posts table, in particular after posts are deleted —
and the entry is untouched; after a manual clear, or after expiry, the
request renders the current data. -/
theorem index_cache_spec (db : DB) (req req2 : PageParam) (t now now2 : Nat)
    (b : String) (hin : now < t + CACHE_TTL) (hout : t + CACHE_TTL ≤ now2) :
    (cachedIndex now db req (some ⟨t, b⟩)).1 = b
    ∧ (cachedIndex now db req (some ⟨t, b⟩)).2 = some ⟨t, b⟩
    ∧ (cachedIndex now db req2 (some ⟨t, b⟩)).1 =
        (cachedIndex now db req (some ⟨t, b⟩)).1
    ∧ (cachedIndex now db req (cacheClear (some ⟨t, b⟩))).1 = renderIndex db req
    ∧ (cachedIndex now2 db req (some ⟨t, b⟩)).1 = renderIndex db req := by
  have hno : ¬ now2 < t + CACHE_TTL := not_lt.mpr hout
  refine ⟨?_, ?_, ?_, ?_, ?_⟩ <;> simp [cachedIndex, cacheClear, hin, hno]

/-- Witness for claim C7: the bytes stored at time 0 are served unchanged
at time 5 although the database holds different data; after a clear the
current data is rendered. -/
theorem index_cache_spec_witness :
    ((5 : Nat) < 0 + CACHE_TTL ∧ (0 : Nat) + CACHE_TTL ≤ 25)
    ∧ (cachedIndex 5 dbSmall PageParam.missing (some ⟨0, "stale"⟩)).1 = "stale"
    ∧ (cachedIndex 5 dbSmall PageParam.missing
        (cacheClear (some ⟨0, "stale"⟩))).1 = renderIndex dbSmall PageParam.missing :=
  ⟨⟨by decide, by decide⟩,
   (index_cache_spec dbSmall PageParam.missing PageParam.missing 0 5 25 "stale"
      (by decide) (by decide)).1,
   (index_cache_spec dbSmall PageParam.missing PageParam.missing 0 5 25 "stale"
      (by decide) (by decide)).2.2.2.1⟩

/-- Claim C8: a valid edit submission by the post author is persisted in
place — the table keeps its length, every row keeps its id and publication
date, the rows bearing the edited id take the submitted text, group and
image (a missing upload keeps the stored file), every other row is
untouched — and the answer is the redirect to the post detail page. -/
theorem post_edit_author_spec (db : DB) (u post_id : Nat) (f : PostFormData)
    (post : Post)
    (hfind : db.posts.find? (fun p => p.id == post_id) = some post)
    (hauth : u = post.author) (hv : f.is_valid = true) :
    (post_edit db (some u) post_id f).2 = Response.redirectPostDetail post_id
    ∧ List.Forall₂ (fun old new : Post =>
        new.id = old.id ∧ new.pub_date = old.pub_date ∧ new.author = old.author
        ∧ (old.id = post_id →
            new.text = f.text ∧ new.group = f.group
            ∧ new.image = f.image.getD old.image)
        ∧ (old.id ≠ post_id → new = old))
      db.posts (post_edit db (some u) post_id f).1.posts := by
  subst hauth
  have hcond : ¬ (post.author ≠ post.author) := fun h => h rfl
  have heq : post_edit db (some post.author) post_id f =
      ({ db with posts := db.posts.map (fun p =>
          if p.id == post_id then
            { p with text := f.text, group := f.group,
                     image := f.image.getD p.image }
          else p) },
        Response.redirectPostDetail post_id) := by
    simp [post_edit, hfind, hcond, hv]
  rw [heq]
  refine ⟨rfl, ?_⟩
  rw [List.forall₂_map_right_iff, List.forall₂_same]
  intro p hp
  by_cases hid : p.id = post_id
  · simp [hid]
  · have hbeq : (p.id == post_id) = false := by simpa using hid
    simp [hbeq, hid]

/-- Witness for claim C8: the author of post 5 submits a valid edit; the
answer is the detail redirect and the row is rewritten in place. -/
theorem post_edit_author_spec_witness :
    (dbSmall.posts.find? (fun p => p.id == 5) = some ⟨5, "hello", 0, 2, none, ""⟩
      ∧ (2 : Nat) = (Post.author ⟨5, "hello", 0, 2, none, ""⟩)
      ∧ PostFormData.is_valid ⟨"edited", some 7, none⟩ = true)
    ∧ (post_edit dbSmall (some 2) 5 ⟨"edited", some 7, none⟩).2 =
        Response.redirectPostDetail 5 :=
  ⟨⟨by decide, by decide, by decide⟩,
   (post_edit_author_spec dbSmall 2 5 ⟨"edited", some 7, none⟩
      ⟨5, "hello", 0, 2, none, ""⟩ (by decide) (by decide) (by decide)).1⟩

end Yatube
